import Mathlib

/-!
Shallow embedding of the car_club repository's single source file
(src/src/js/admin-session.js).  The file holds two independent browser
components:

* `AdminSessionManager` — a localStorage-backed session/authentication
  state holder (class fields `currentUser`, `sessionExpiry`,
  `lastActivity`, `isInitialized`, plus the persisted record under
  `SESSION_KEY`);
* a header/footer fragment loader (`loadHTMLComponent`,
  `loadAllComponents`, `initializeComponentFeatures`).

Modelling conventions:

* `Date.now()` is passed explicitly as a `now : Nat` argument; a single
  top-level call uses one value of `now` throughout.
* localStorage under `SESSION_KEY` is modelled as
  `ManagerState.storage : Option RawSession`, the already-parsed record
  (`JSON.stringify`/`JSON.parse` round-trips records of this shape, and
  `getStoredSession`'s parse-error path is not reachable for values the
  model can hold).
* JavaScript truthiness: a missing object is `none`; a number is falsy
  when it is `0` (`natTruthy`); a string is falsy when it is `""`.
* `window.confirm` (used by `showInactivityWarning`) is an external
  input: each call consumes the head of a `confirms : List Bool`
  argument (`true` = OK/extend, `false` = Cancel/logout).  When the
  list is exhausted the dialog is answered Cancel — in the source an
  unending run of OK answers re-enters the inactivity check and never
  returns, so every terminating execution ends with a Cancel answer.
* The DOM elements the session manager touches (`loginScreen`,
  `adminDashboard`, `currentUser` text, `.admin-user-name` texts) and
  the loader's containers (by element id) are modelled by the `Dom`
  structure.
-/

/-- JavaScript string user record as used by the session manager
(`user.id`, `user.username`, `user.full_name`, `user.role`); an absent
string field is modelled as `""`, which is exactly the falsy case. -/
structure User where
  id : String
  username : String
  full_name : String
  role : String
deriving Repr, DecidableEq

/-- Persisted session record (the parse of the JSON stored under
`SESSION_KEY`): `{ user, loginTime, expiry, lastActivity }`, each field
possibly absent. -/
structure RawSession where
  user : Option User
  loginTime : Option Nat
  expiry : Option Nat
  lastActivity : Option Nat
deriving Repr, DecidableEq

/-- Visibility state of one DOM element: whether it carries the
`hidden` class and the value of `style.display`. -/
structure Elem where
  hiddenClass : Bool
  display : String
deriving Repr, DecidableEq

/-- The slice of `document` the embedded code reads and writes:
the two dashboard containers, the user-name display texts, and the
fragment-loader containers as an association list from element id to
`innerHTML` (`getElementById` finds the first entry). -/
structure Dom where
  loginScreen : Option Elem
  adminDashboard : Option Elem
  currentUserText : Option String
  adminUserNames : List String
  containers : List (String × String)
deriving Repr, DecidableEq

/-- In-memory fields of `AdminSessionManager` together with the
persisted record (`storage` stands for localStorage under
`SESSION_KEY`). -/
structure ManagerState where
  currentUser : Option User
  sessionExpiry : Option Nat
  lastActivity : Nat
  storage : Option RawSession
  isInitialized : Bool
deriving Repr, DecidableEq

/-- Session lifetime: `24 * 60 * 60 * 1000` ms (`this.SESSION_TIMEOUT`). -/
def SESSION_TIMEOUT : Nat := 24 * 60 * 60 * 1000

/-- Inactivity threshold: `30 * 60 * 1000` ms (`this.ACTIVITY_TIMEOUT`). -/
def ACTIVITY_TIMEOUT : Nat := 30 * 60 * 1000

/-- Truthiness of an optional JavaScript number: `null`/absent and `0`
are falsy. -/
def natTruthy : Option Nat → Bool
  | none => false
  | some n => n != 0

/-- Composite check `!user.username || !user.id` from the source,
negated: both strings present and non-empty. -/
def userFieldsTruthy (u : User) : Bool :=
  u.username != "" && u.id != ""

/-- Embeds `clearSession()`: remove the persisted record and reset the
in-memory fields (`lastActivity` is reset to `Date.now()`);
`isInitialized` is not touched. -/
def clearSession (now : Nat) (s : ManagerState) : ManagerState :=
  { s with storage := none, currentUser := none, sessionExpiry := none,
           lastActivity := now }

/-- Embeds `showLoginForm()`: when both `loginScreen` and
`adminDashboard` exist, un-hide the login screen (`display: block`) and
hide the dashboard (`display: none`); otherwise only a console message
is emitted and the DOM is untouched. -/
def showLoginForm (d : Dom) : Dom :=
  match d.loginScreen, d.adminDashboard with
  | some ls, some ad =>
      { d with
          loginScreen := some { ls with hiddenClass := false, display := "block" },
          adminDashboard := some { ad with hiddenClass := true, display := "none" } }
  | _, _ => d

/-- Embeds `updateUserDisplay()`: when a current user exists, write
`full_name || username` into the `currentUser` element (if present) and
into every `.admin-user-name` element. -/
def updateUserDisplay (cu : Option User) (d : Dom) : Dom :=
  match cu with
  | some u =>
      let txt := if u.full_name != "" then u.full_name else u.username
      { d with
          currentUserText := d.currentUserText.map (fun _ => txt),
          adminUserNames := d.adminUserNames.map (fun _ => txt) }
  | none => d

/-- Embeds `showAdminContent()`: when both containers exist, hide the
login screen, show the dashboard and run `updateUserDisplay`; otherwise
the DOM is untouched. -/
def showAdminContent (s : ManagerState) (d : Dom) : Dom :=
  match d.loginScreen, d.adminDashboard with
  | some ls, some ad =>
      let d1 : Dom :=
        { d with
            loginScreen := some { ls with hiddenClass := true, display := "none" },
            adminDashboard := some { ad with hiddenClass := false, display := "block" } }
      updateUserDisplay s.currentUser d1
  | _, _ => d

/-- Embeds `getStoredSession()`: read the record under `SESSION_KEY`
(the parse-failure branch is unreachable in the model, see the header
comment). -/
def getStoredSession (s : ManagerState) : Option RawSession :=
  s.storage

/-- Storage-refresh step of `updateActivity()`, applied after
`this.lastActivity = Date.now()`: when a stored record exists, set its
`lastActivity` to now and its `expiry` to `now + SESSION_TIMEOUT`
(mirrored into `this.sessionExpiry`) and write it back; with no stored
record nothing further happens. -/
def refreshStoredActivity (now : Nat) (s2 : ManagerState) : ManagerState :=
  match getStoredSession s2 with
  | some sess =>
      { s2 with
          sessionExpiry := some (now + SESSION_TIMEOUT),
          storage := some { sess with
                              lastActivity := some now,
                              expiry := some (now + SESSION_TIMEOUT) } }
  | none => s2

/-- Embeds `isAuthenticated()`.  The source checks, in order: truthiness
of `this.currentUser` and `this.sessionExpiry` (an object is truthy when
present, a number also needs to be non-zero); expiry
(`Date.now() >= this.sessionExpiry`, clearing the session); inactivity
(`Date.now() - this.lastActivity > this.ACTIVITY_TIMEOUT`, running
`showInactivityWarning()`).  The inactivity dialog is inlined here
(it is the only recursive path): answer OK runs `updateActivity()`,
whose body (guarded re-check of `isAuthenticated`, then
`this.lastActivity = Date.now()` and `refreshStoredActivity`) is
inlined in the `c = true` branch; answer Cancel runs `logout(false)`,
i.e. `clearSession` followed by `showLoginForm`.  Each `confirm`
consumes one element of `confirms`; an exhausted list answers
Cancel. -/
def isAuthenticated (now : Nat) (s : ManagerState) (d : Dom)
    (confirms : List Bool) : Bool × ManagerState × Dom :=
  if !s.currentUser.isSome || !natTruthy s.sessionExpiry then (false, s, d)
  else if s.sessionExpiry.getD 0 ≤ now then (false, clearSession now s, d)
  else if ACTIVITY_TIMEOUT < now - s.lastActivity then
    if confirms.headD false then
      let r := isAuthenticated now s d confirms.tail
      if r.1 then
        (false, refreshStoredActivity now { r.2.1 with lastActivity := now }, r.2.2)
      else (false, r.2.1, r.2.2)
    else (false, clearSession now s, showLoginForm d)
  else (true, s, d)
termination_by confirms.length
decreasing_by
  cases confirms with
  | nil => simp_all
  | cons c rest => simp [List.tail]

/-- Embeds `updateActivity()`: when `isAuthenticated()` holds
(threading whatever that call changed), set `lastActivity` to now and
refresh the stored record. -/
def updateActivity (now : Nat) (s : ManagerState) (d : Dom) (confirms : List Bool) :
    ManagerState × Dom :=
  let r := isAuthenticated now s d confirms
  if r.1 then (refreshStoredActivity now { r.2.1 with lastActivity := now }, r.2.2)
  else (r.2.1, r.2.2)

/-- Embeds `isSessionValid(sessionData)`: structure check
(`!sessionData.user || !sessionData.expiry`), expiry check
(`Date.now() >= sessionData.expiry`), then the user-field check
(`!sessionData.user.username || !sessionData.user.id`). -/
def isSessionValid (now : Nat) (sessionData : RawSession) : Bool :=
  match sessionData.user, sessionData.expiry with
  | some u, some e =>
      if e == 0 then false
      else if e ≤ now then false
      else userFieldsTruthy u
  | _, _ => false

/-- Embeds `createSession(user)`: reject a falsy argument or one with a
falsy `username` or `id` (no state is touched); otherwise build the
session record with `expiry = now + SESSION_TIMEOUT`, persist it, and
set the in-memory fields. -/
def createSession (user : Option User) (now : Nat) (s : ManagerState) :
    Bool × ManagerState :=
  match user with
  | none => (false, s)
  | some u =>
      if u.username == "" || u.id == "" then (false, s)
      else
        let sessionData : RawSession :=
          { user := some u, loginTime := some now,
            expiry := some (now + SESSION_TIMEOUT), lastActivity := some now }
        (true,
         { s with storage := some sessionData, currentUser := some u,
                  sessionExpiry := some (now + SESSION_TIMEOUT),
                  lastActivity := now })

/-- Embeds `getCurrentUser()`: `this.currentUser` when
`isAuthenticated()` holds (threading the state that call may have
changed), else `null`. -/
def getCurrentUser (now : Nat) (s : ManagerState) (d : Dom) (confirms : List Bool) :
    Option User × ManagerState × Dom :=
  let r := isAuthenticated now s d confirms
  if r.1 then (r.2.1.currentUser, r.2.1, r.2.2) else (none, r.2.1, r.2.2)

/-- Embeds `initializeSession()`: when already initialized just return
`isAuthenticated()`; when the stored record validates, restore
`currentUser`, `sessionExpiry` and `lastActivity`
(`savedSession.lastActivity || Date.now()`), run `updateActivity()` and
return true; otherwise `clearSession()` and return false.  Either way
`isInitialized` becomes true. -/
def initializeSession (now : Nat) (s : ManagerState) (d : Dom) (confirms : List Bool) :
    Bool × ManagerState × Dom :=
  if s.isInitialized then isAuthenticated now s d confirms
  else
    match getStoredSession s with
    | some saved =>
        if isSessionValid now saved then
          let la :=
            match saved.lastActivity with
            | some v => if v == 0 then now else v
            | none => now
          let s1 := { s with currentUser := saved.user, sessionExpiry := saved.expiry,
                             lastActivity := la }
          let r := updateActivity now s1 d confirms
          (true, { r.1 with isInitialized := true }, r.2)
        else (false, { clearSession now s with isInitialized := true }, d)
    | none => (false, { clearSession now s with isInitialized := true }, d)

/-- Embeds the `AdminSessionManager` constructor up to its
`initializeSession()` call: fresh in-memory fields
(`currentUser = null`, `sessionExpiry = null`,
`lastActivity = Date.now()`, `isInitialized = false`) over whatever
record localStorage holds, then `initializeSession()`. -/
def constructorInit (storage : Option RawSession) (now : Nat) (d : Dom)
    (confirms : List Bool) : Bool × ManagerState × Dom :=
  let s0 : ManagerState :=
    { currentUser := none, sessionExpiry := none, lastActivity := now,
      storage := storage, isInitialized := false }
  initializeSession now s0 d confirms

/-- Character-list test that `needle` is a prefix of the second list
(JavaScript `String.prototype.startsWith` on code points). -/
def charsPrefixOf : List Char → List Char → Bool
  | [], _ => true
  | _ :: _, [] => false
  | a :: as, b :: bs => a == b && charsPrefixOf as bs

/-- Character-list test that `needle` occurs contiguously in the second
list. -/
def charsInfixOf (needle : List Char) : List Char → Bool
  | [] => charsPrefixOf needle []
  | b :: bs => charsPrefixOf needle (b :: bs) || charsInfixOf needle bs

/-- JavaScript `s.includes(sub)`: `sub` occurs contiguously in `s`. -/
def jsIncludes (s sub : String) : Bool :=
  charsInfixOf sub.toList s.toList

/-- JavaScript `s.split(sep)` for a one-character separator: splitting
never yields an empty array (`"".split(sep)` is `[""]`). -/
def jsSplitChar (sep : Char) : List Char → List (List Char)
  | [] => [[]]
  | c :: cs =>
      let rest := jsSplitChar sep cs
      if c == sep then [] :: rest
      else
        match rest with
        | r :: rs => (c :: r) :: rs
        | [] => [[c]]

/-- JavaScript `s.split(sep).pop()`: the last piece of the split. -/
def jsSplitPop (sep : Char) (s : String) : String :=
  String.mk ((jsSplitChar sep s.toList).getLastD [])

/-- Admin page allowlist from `requiresAuthentication()`. -/
def adminPages : List String :=
  ["admin-dashboard.html", "admin-events.html", "admin-news.html",
   "admin-members.html", "admin-photos.html", "admin-users.html",
   "admin-settings.html"]

/-- Embeds `requiresAuthentication()`: the last path segment of
`window.location.pathname` is in `adminPages`, or the pathname contains
`/admin`. -/
def requiresAuthentication (pathname : String) : Bool :=
  let currentPage := jsSplitPop '/' pathname
  adminPages.contains currentPage || jsIncludes pathname "/admin"

/-- Embeds `protectPage()`: pages that do not require authentication
are left alone with result true; otherwise `isAuthenticated()` decides
between `showAdminContent()` (result true) and `showLoginForm()`
(result false). -/
def protectPage (pathname : String) (now : Nat) (s : ManagerState) (d : Dom)
    (confirms : List Bool) : Bool × ManagerState × Dom :=
  if !(requiresAuthentication pathname) then (true, s, d)
  else
    let r := isAuthenticated now s d confirms
    if r.1 then (true, r.2.1, showAdminContent r.2.1 r.2.2)
    else (false, r.2.1, showLoginForm r.2.2)

/-- Outcome of one `fetch(componentPath)` call as the loader observes
it: either the promise rejects (network failure, message
`error.message`), or a response arrives with `ok`, `status` and
`statusText`, whose `text()` read either rejects with a message or
yields the body. -/
inductive FetchOutcome
  | netError (msg : String)
  | response (ok : Bool) (status : Nat) (statusText : String)
      (body : Except String String)
deriving Repr

/-- Loading indicator the loader writes before fetching:
`<div class="loading-component">Loading NAME...</div>`. -/
def loadingHTML (componentName : String) : String :=
  "<div class=\"loading-component\">Loading " ++ componentName ++ "...</div>"

/-- Fallback content written by the loader's catch block (the template
literal with its original newlines and indentation). -/
def errorHTML (componentName msg : String) : String :=
  "\n                <div class=\"component-error\">\n                    <p>Unable to load "
    ++ componentName
    ++ ". Please refresh the page.</p>\n                    <small>Error: "
    ++ msg
    ++ "</small>\n                </div>\n            "

/-- Message of the error thrown on a non-OK response:
`HTTP STATUS: STATUSTEXT`. -/
def httpErrorMsg (status : Nat) (statusText : String) : String :=
  "HTTP " ++ toString status ++ ": " ++ statusText

/-- First entry for `id` in the container association list
(`document.getElementById`). -/
def lookupContainer : List (String × String) → String → Option String
  | [], _ => none
  | (k, v) :: rest, id => if k == id then some v else lookupContainer rest id

/-- Replace the `innerHTML` of the first entry for `id`. -/
def setContainerList : List (String × String) → String → String → List (String × String)
  | [], _, _ => []
  | (k, v) :: rest, id, content =>
      if k == id then (k, content) :: rest
      else (k, v) :: setContainerList rest id content

/-- Container lookup through the `Dom` structure. -/
def getContainer (d : Dom) (id : String) : Option String :=
  lookupContainer d.containers id

/-- Container update through the `Dom` structure. -/
def setContainer (d : Dom) (id : String) (content : String) : Dom :=
  { d with containers := setContainerList d.containers id content }

/-- Try-block of `loadHTMLComponent`: missing container returns false;
otherwise write the loading indicator, then either throw (network
failure, non-OK status, body-read failure — the error carries the DOM
at the throw point) or write the body verbatim and return true. -/
def loadTryBody (fetchRes : FetchOutcome) (containerId componentName : String)
    (d : Dom) : Except (String × Dom) (Bool × Dom) :=
  match getContainer d containerId with
  | none => Except.ok (false, d)
  | some _ =>
      let d1 := setContainer d containerId (loadingHTML componentName)
      match fetchRes with
      | FetchOutcome.netError msg => Except.error (msg, d1)
      | FetchOutcome.response ok status statusText body =>
          if !ok then Except.error (httpErrorMsg status statusText, d1)
          else
            match body with
            | Except.error msg => Except.error (msg, d1)
            | Except.ok htmlContent =>
                Except.ok (true, setContainer d1 containerId htmlContent)

/-- Embeds `loadHTMLComponent(componentPath, containerId,
componentName)`: run the try-block; the catch block looks the container
up again and, when present, writes the fallback error content; the call
always settles with a boolean (`componentPath` only names what was
fetched — the fetch itself is the `fetchRes` argument). -/
def loadHTMLComponent (fetchRes : FetchOutcome)
    (componentPath containerId componentName : String) (d : Dom) : Bool × Dom :=
  match loadTryBody fetchRes containerId componentName d with
  | Except.ok r => r
  | Except.error (msg, d1) =>
      match getContainer d1 containerId with
      | some _ => (false, setContainer d1 containerId (errorHTML componentName msg))
      | none => (false, d1)

/-- Embeds the container-content effect of
`initializeComponentFeatures()`: of its four feature hooks only
`updateNextMeetingDate()` writes container content (into the element
with id `nextMeeting`, when present); the menu, smooth-scroll and
scroll-effect hooks attach listeners without changing any
`innerHTML`. -/
def initializeComponentFeatures (d : Dom) : Dom :=
  match getContainer d "nextMeeting" with
  | some _ =>
      setContainer d "nextMeeting"
        "Saturday, September 16th<br>10:00 AM at Community Center"
  | none => d

/-- Embeds `loadAllComponents()`: load the header
(`header.html` into `header-container`) and the footer (`footer.html`
into `footer-container`); the two awaited loads touch only their own
containers, so running them in sequence models the
`Promise.all` of the source; then run the feature initialization. -/
def loadAllComponents (headerFetch footerFetch : FetchOutcome) (d : Dom) :
    (Bool × Bool) × Dom :=
  let rh := loadHTMLComponent headerFetch "header.html" "header-container" "header" d
  let rf := loadHTMLComponent footerFetch "footer.html" "footer-container" "footer" rh.2
  ((rh.1, rf.1), initializeComponentFeatures rf.2)

/-- Closed form of `isAuthenticated` (see
`isAuthenticated_eq_result`): each OK answer to the inactivity dialog
re-enters the unchanged inactivity check, so the dialog chain always
ends in a Cancel answer and the inactive branch always produces the
logged-out state. -/
def isAuthenticatedResult (now : Nat) (s : ManagerState) (d : Dom) :
    Bool × ManagerState × Dom :=
  if !s.currentUser.isSome || !natTruthy s.sessionExpiry then (false, s, d)
  else if s.sessionExpiry.getD 0 ≤ now then (false, clearSession now s, d)
  else if ACTIVITY_TIMEOUT < now - s.lastActivity then
    (false, clearSession now s, showLoginForm d)
  else (true, s, d)

/-- Structural completeness of a persisted record — the structural part
of `isSessionValid` (presence and truthiness of `user.username`,
`user.id` and `expiry`), independent of the expiry comparison. -/
def structurallyComplete (sessionData : RawSession) : Bool :=
  (match sessionData.user with
   | some u => userFieldsTruthy u
   | none => false) && natTruthy sessionData.expiry

/-- Successful fetch as the loader's happy path sees it: a response
with `ok` set whose body read succeeded. -/
def fetchSucceeded : FetchOutcome → Bool
  | FetchOutcome.response true _ _ (Except.ok _) => true
  | _ => false

/-- Document with none of the modelled elements. -/
def emptyDom : Dom :=
  { loginScreen := none, adminDashboard := none, currentUserText := none,
    adminUserNames := [], containers := [] }

/-- Dashboard document: both `loginScreen` and `adminDashboard` exist. -/
def dashboardDom : Dom :=
  { loginScreen := some { hiddenClass := true, display := "none" },
    adminDashboard := some { hiddenClass := false, display := "block" },
    currentUserText := some "", adminUserNames := [], containers := [] }

/-- Document holding the two loader containers. -/
def loaderDom : Dom :=
  { loginScreen := none, adminDashboard := none, currentUserText := none,
    adminUserNames := [],
    containers := [("header-container", ""), ("footer-container", "")] }

/-- Manager state with no session at all. -/
def emptyState : ManagerState :=
  { currentUser := none, sessionExpiry := none, lastActivity := 0,
    storage := none, isInitialized := true }

/-- Concrete valid user. -/
def adminUser : User :=
  { id := "1", username := "admin", full_name := "", role := "admin" }

/-- Concrete user whose `id` is missing (falsy). -/
def userNoId : User :=
  { id := "", username := "admin", full_name := "", role := "admin" }

/-- Persisted record whose `expiry` is the timestamp `0`. -/
def zeroExpiryRecord : RawSession :=
  { user := some adminUser, loginTime := some 0, expiry := some 0,
    lastActivity := some 0 }

/-- Manager state carrying the `expiry = 0` session. -/
def zeroExpiryState : ManagerState :=
  { currentUser := some adminUser, sessionExpiry := some 0, lastActivity := 0,
    storage := some zeroExpiryRecord, isInitialized := true }

/-- Persisted record of a session that is far from expiry. -/
def freshRecord : RawSession :=
  { user := some adminUser, loginTime := some 0, expiry := some 100000000000,
    lastActivity := some 0 }

/-- Manager state of a non-expired session whose last activity is stale
(at `now = 1800001` the inactivity threshold of 1800000 ms is
exceeded). -/
def inactiveState : ManagerState :=
  { currentUser := some adminUser, sessionExpiry := some 100000000000,
    lastActivity := 0, storage := some freshRecord, isInitialized := true }

/-- Manager state of a non-expired, recently active session. -/
def expiredState : ManagerState :=
  { currentUser := some adminUser, sessionExpiry := some 50, lastActivity := 0,
    storage := some freshRecord, isInitialized := true }

/-- Persisted record whose user is missing its `id`. -/
def recordNoId : RawSession :=
  { user := some userNoId, loginTime := some 0, expiry := some 100000000000,
    lastActivity := some 0 }

/-- The inactivity dialog always collapses: `isAuthenticated` agrees
with its closed form for every answer list. -/
theorem isAuthenticated_eq_result (now : Nat) (s : ManagerState) (d : Dom)
    (confirms : List Bool) :
    isAuthenticated now s d confirms = isAuthenticatedResult now s d := by
  induction confirms with
  | nil =>
      unfold isAuthenticated isAuthenticatedResult
      rfl
  | cons c rest ih =>
      unfold isAuthenticated isAuthenticatedResult
      split
      next h1 => rfl
      next h1 =>
        split
        next h2 => rfl
        next h2 =>
          split
          next h3 =>
            by_cases hc : (c :: rest).headD false = true
            · rw [if_pos hc]
              unfold isAuthenticatedResult at ih
              simp only [List.tail_cons]
              rw [ih, if_neg h1, if_neg h2, if_pos h3]
              simp
            · rw [if_neg hc]
          next h3 => rfl

/-- Claim C8: from any manager state, calling `clearSession` twice in
succession leaves exactly the same state — no in-memory user, no
expiry, no persisted record — as calling it once. -/
theorem C8_clearSession_idempotent (now : Nat) (s : ManagerState) :
    clearSession now (clearSession now s) = clearSession now s ∧
    (clearSession now s).currentUser = none ∧
    (clearSession now s).sessionExpiry = none ∧
    (clearSession now s).storage = none := by
  refine ⟨rfl, rfl, rfl, rfl⟩

/-- Claim C7: for every argument that is null or lacks a non-empty `id`
or a non-empty `username`, `createSession` returns false and changes
nothing — the in-memory fields and the persisted record are exactly
those of the pre-call state. -/
theorem C7_createSession_invalid_noop (user : Option User) (now : Nat)
    (s : ManagerState)
    (h : user = none ∨ ∃ u, user = some u ∧ (u.id = "" ∨ u.username = "")) :
    createSession user now s = (false, s) := by
  rcases h with h | ⟨u, hu, hbad⟩
  · subst h; rfl
  · subst hu
    unfold createSession
    rcases hbad with h1 | h1 <;> simp [h1]

/-- Witness for C7 at the concrete user missing its id. -/
theorem C7_witness : createSession (some userNoId) 7 emptyState = (false, emptyState) :=
  C7_createSession_invalid_noop (some userNoId) 7 emptyState
    (Or.inr ⟨userNoId, rfl, Or.inl rfl⟩)

/-- Claim C9: whenever `isAuthenticated()` returns false,
`getCurrentUser()` (evaluated from the same state with the same clock
and dialog answers) returns null; the in-memory user object is never
exposed through `getCurrentUser`. -/
theorem C9_getCurrentUser_null (now : Nat) (s : ManagerState) (d : Dom)
    (confirms : List Bool)
    (h : (isAuthenticated now s d confirms).1 = false) :
    (getCurrentUser now s d confirms).1 = none := by
  unfold getCurrentUser
  simp [h]

/-- Witness for C9 at the empty state. -/
theorem C9_witness :
    (isAuthenticated 0 emptyState emptyDom []).1 = false ∧
    (getCurrentUser 0 emptyState emptyDom []).1 = none := by
  have h : (isAuthenticated 0 emptyState emptyDom []).1 = false := by
    rw [isAuthenticated_eq_result]; rfl
  exact ⟨h, C9_getCurrentUser_null 0 emptyState emptyDom [] h⟩

/-- Claim C1: for every user object with non-empty `id` and `username`,
`createSession(user)` returns true, and immediately afterwards
`isAuthenticated()` returns true and `getCurrentUser()` returns that
same user object. -/
theorem C1_createSession_authenticates (u : User) (now : Nat) (s : ManagerState)
    (d : Dom) (confirms : List Bool)
    (hid : u.id ≠ "") (husr : u.username ≠ "") :
    (createSession (some u) now s).1 = true ∧
    (isAuthenticated now (createSession (some u) now s).2 d confirms).1 = true ∧
    (getCurrentUser now (createSession (some u) now s).2 d confirms).1 = some u := by
  have hcond : (u.username == "" || u.id == "") = false := by
    simp [husr, hid]
  have hcs : createSession (some u) now s =
      (true,
       { s with storage := some { user := some u, loginTime := some now,
                                  expiry := some (now + SESSION_TIMEOUT),
                                  lastActivity := some now },
                currentUser := some u,
                sessionExpiry := some (now + SESSION_TIMEOUT),
                lastActivity := now }) := by
    unfold createSession
    simp [hcond]
  have hauth :
      isAuthenticated now (createSession (some u) now s).2 d confirms =
        (true, (createSession (some u) now s).2, d) := by
    rw [isAuthenticated_eq_result, hcs]
    unfold isAuthenticatedResult
    have h1 : ¬ (now + SESSION_TIMEOUT ≤ now) := by
      simp [SESSION_TIMEOUT]
    have h2 : ¬ (ACTIVITY_TIMEOUT < now - now) := by
      simp [ACTIVITY_TIMEOUT]
    simp [natTruthy, SESSION_TIMEOUT, h1, h2]
  refine ⟨by rw [hcs], by rw [hauth], ?_⟩
  unfold getCurrentUser
  rw [hauth]
  simp [hcs]

/-- Witness for C1 at a concrete valid user logging in at time 0. -/
theorem C1_witness :
    (createSession (some adminUser) 0 emptyState).1 = true ∧
    (isAuthenticated 0 (createSession (some adminUser) 0 emptyState).2 emptyDom []).1 = true ∧
    (getCurrentUser 0 (createSession (some adminUser) 0 emptyState).2 emptyDom []).1 =
      some adminUser :=
  C1_createSession_authenticates adminUser 0 emptyState emptyDom []
    (by decide) (by decide)

/-- Claim C2 (amended): for every session record whose expiry timestamp
is nonzero and in the past (`now ≥ expiry > 0`), `isAuthenticated()`
returns false and the persisted record is removed.  (A record whose
expiry timestamp is exactly 0 also yields false, but it fails the
truthiness presence check instead and the persisted record is NOT
removed — see the counterexample.) -/
theorem C2_expired_session_cleared (now e : Nat) (u : User) (s : ManagerState)
    (d : Dom) (confirms : List Bool)
    (hcu : s.currentUser = some u) (he : s.sessionExpiry = some e)
    (he0 : e ≠ 0) (hpast : e ≤ now) :
    (isAuthenticated now s d confirms).1 = false ∧
    (isAuthenticated now s d confirms).2.1.storage = none := by
  rw [isAuthenticated_eq_result]
  unfold isAuthenticatedResult
  rw [hcu, he]
  simp [natTruthy, he0, hpast, clearSession]

/-- Counterexample for C2 as stated: the session record with
`expiry = 0` is in the past at `now = 5`, `isAuthenticated()` returns
false, yet the persisted record is still there afterwards (the
`!this.sessionExpiry` truthiness check fires first, short of the
clearing branch). -/
theorem C2_counterexample :
    zeroExpiryState.sessionExpiry = some 0 ∧
    zeroExpiryState.storage = some zeroExpiryRecord ∧
    (isAuthenticated 5 zeroExpiryState emptyDom []).1 = false ∧
    (isAuthenticated 5 zeroExpiryState emptyDom []).2.1.storage = some zeroExpiryRecord := by
  refine ⟨rfl, rfl, ?_, ?_⟩ <;> (rw [isAuthenticated_eq_result]; rfl)

/-- Witness for C2 at a concrete session expired at 50, checked at
100. -/
theorem C2_witness :
    expiredState.currentUser = some adminUser ∧
    ((isAuthenticated 100 expiredState emptyDom []).1 = false ∧
     (isAuthenticated 100 expiredState emptyDom []).2.1.storage = none) :=
  ⟨rfl, C2_expired_session_cleared 100 50 adminUser expiredState emptyDom []
          rfl rfl (by omega) (by omega)⟩

/-- The login/dashboard containers are untouched by
`updateUserDisplay` (it only writes user-name texts). -/
theorem updateUserDisplay_loginScreen (cu : Option User) (d : Dom) :
    (updateUserDisplay cu d).loginScreen = d.loginScreen := by
  cases cu <;> simp [updateUserDisplay]

/-- The dashboard container is untouched by `updateUserDisplay`. -/
theorem updateUserDisplay_adminDashboard (cu : Option User) (d : Dom) :
    (updateUserDisplay cu d).adminDashboard = d.adminDashboard := by
  cases cu <;> simp [updateUserDisplay]

/-- Claim C3: on a page path that is not in the admin-page allowlist
and has no admin path prefix, `protectPage()` returns true and performs
no DOM modification (and no state change); otherwise it returns
`isAuthenticated()`'s boolean and, when both containers exist in the
document `isAuthenticated()` left behind, toggles their visibility
accordingly (admin content shown on true, login form shown on
false). -/
theorem C3_protectPage_guard (pathname : String) (now : Nat) (s : ManagerState)
    (d : Dom) (confirms : List Bool) :
    (requiresAuthentication pathname = false →
       protectPage pathname now s d confirms = (true, s, d)) ∧
    (requiresAuthentication pathname = true →
       (protectPage pathname now s d confirms).1 = (isAuthenticated now s d confirms).1 ∧
       (∀ ls ad,
          (isAuthenticated now s d confirms).2.2.loginScreen = some ls →
          (isAuthenticated now s d confirms).2.2.adminDashboard = some ad →
          (protectPage pathname now s d confirms).2.2.loginScreen =
            some { hiddenClass := (isAuthenticated now s d confirms).1,
                   display := if (isAuthenticated now s d confirms).1 then "none" else "block" } ∧
          (protectPage pathname now s d confirms).2.2.adminDashboard =
            some { hiddenClass := !(isAuthenticated now s d confirms).1,
                   display := if (isAuthenticated now s d confirms).1 then "block" else "none" })) := by
  constructor
  · intro h
    unfold protectPage
    simp [h]
  · intro h
    unfold protectPage
    simp only [h, Bool.not_true, Bool.false_eq_true, if_false]
    rcases hR : isAuthenticated now s d confirms with ⟨b, s', d'⟩
    cases b
    · refine ⟨rfl, ?_⟩
      intro ls ad hls had
      simp only at hls had ⊢
      unfold showLoginForm
      rw [hls, had]
      simp
    · refine ⟨rfl, ?_⟩
      intro ls ad hls had
      simp only at hls had ⊢
      unfold showAdminContent
      rw [hls, had]
      constructor
      · simp [updateUserDisplay_loginScreen]
      · simp [updateUserDisplay_adminDashboard]

/-- Witness for C3: a non-admin page is untouched; on the dashboard
page with no session the call returns false. -/
theorem C3_witness :
    protectPage "/index.html" 0 emptyState emptyDom [] = (true, emptyState, emptyDom) ∧
    (protectPage "/admin-dashboard.html" 0 emptyState dashboardDom []).1 = false := by
  constructor
  · exact (C3_protectPage_guard "/index.html" 0 emptyState emptyDom []).1 (by decide)
  · have h := (C3_protectPage_guard "/admin-dashboard.html" 0 emptyState dashboardDom []).2
      (by decide)
    rw [h.1, isAuthenticated_eq_result]
    rfl

/-- Claim C4 (amended): for every session record that is not yet
expired but whose time since last recorded activity exceeds the
30-minute inactivity threshold, `isAuthenticated()` returns false and —
whatever the user answers in the inactivity dialog — by the time the
call returns the persisted record HAS been cleared: each OK answer
re-enters the unchanged inactivity check and the final Cancel answer
runs `logout(false)`, which clears the session. -/
theorem C4_inactivity_always_clears (now e : Nat) (u : User) (s : ManagerState)
    (d : Dom) (confirms : List Bool)
    (hcu : s.currentUser = some u) (he : s.sessionExpiry = some e) (he0 : e ≠ 0)
    (hfresh : now < e) (hinact : ACTIVITY_TIMEOUT < now - s.lastActivity) :
    (isAuthenticated now s d confirms).1 = false ∧
    (isAuthenticated now s d confirms).2.1.storage = none := by
  have hne : ¬ (e ≤ now) := by omega
  rw [isAuthenticated_eq_result]
  unfold isAuthenticatedResult
  rw [hcu, he]
  simp [natTruthy, he0, hne, hinact, clearSession]

/-- Counterexample for C4 as stated ("the persisted record is not
necessarily cleared by that call"): at a concrete inactive,
non-expired session the record IS cleared by the call — here with an
empty answer list, i.e. the dialog is cancelled. -/
theorem C4_counterexample :
    inactiveState.storage = some freshRecord ∧
    (isAuthenticated 1800001 inactiveState emptyDom []).1 = false ∧
    (isAuthenticated 1800001 inactiveState emptyDom []).2.1.storage = none := by
  refine ⟨rfl, ?_, ?_⟩ <;> (rw [isAuthenticated_eq_result]; rfl)

/-- Witness for C4, with the dialog answered OK twice and then
Cancel. -/
theorem C4_witness :
    (isAuthenticated 1800001 inactiveState emptyDom [true, true, false]).1 = false ∧
    (isAuthenticated 1800001 inactiveState emptyDom [true, true, false]).2.1.storage = none :=
  C4_inactivity_always_clears 1800001 100000000000 adminUser inactiveState emptyDom
    [true, true, false] rfl rfl (by omega) (by omega) (by decide)

/-- Claim C5: every structurally incomplete persisted record — in
particular one whose `user.id` is missing — is treated as absent by
initialization: `initializeSession` (run by the constructor) reports
false, removes the storage record, and the manager is unauthenticated
afterwards.  Hence right after initialization the persisted record is
either entirely absent or structurally complete. -/
theorem C5_incomplete_record_treated_absent (sessionData : RawSession) (now : Nat)
    (d : Dom) (confirms : List Bool)
    (h : structurallyComplete sessionData = false) :
    (constructorInit (some sessionData) now d confirms).1 = false ∧
    (constructorInit (some sessionData) now d confirms).2.1.storage = none ∧
    (isAuthenticated now (constructorInit (some sessionData) now d confirms).2.1
       (constructorInit (some sessionData) now d confirms).2.2 confirms).1 = false := by
  have hvalid : isSessionValid now sessionData = false := by
    unfold isSessionValid
    unfold structurallyComplete at h
    cases hu : sessionData.user with
    | none => rfl
    | some u =>
        cases hexp : sessionData.expiry with
        | none => simp
        | some e =>
            rw [hu, hexp] at h
            simp only [natTruthy] at h
            by_cases he0 : e = 0
            · simp [he0]
            · have huft : userFieldsTruthy u = false := by
                simp [he0] at h
                exact h
              by_cases hle : e ≤ now
              · simp [hle, he0]
              · simp [hle, he0, huft]
  have hinit : constructorInit (some sessionData) now d confirms =
      (false,
       { currentUser := none, sessionExpiry := none, lastActivity := now,
         storage := none, isInitialized := true }, d) := by
    unfold constructorInit initializeSession getStoredSession
    simp [hvalid, clearSession]
  refine ⟨by rw [hinit], by rw [hinit], ?_⟩
  rw [hinit, isAuthenticated_eq_result]
  rfl

/-- Witness for C5 at the concrete record missing `user.id`. -/
theorem C5_witness :
    structurallyComplete recordNoId = false ∧
    ((constructorInit (some recordNoId) 1000 emptyDom []).1 = false ∧
     (constructorInit (some recordNoId) 1000 emptyDom []).2.1.storage = none ∧
     (isAuthenticated 1000 (constructorInit (some recordNoId) 1000 emptyDom []).2.1
        (constructorInit (some recordNoId) 1000 emptyDom []).2.2 []).1 = false) :=
  ⟨by decide, C5_incomplete_record_treated_absent recordNoId 1000 emptyDom [] (by decide)⟩

/-- Writing a container that exists rewrites what a lookup of the same
id finds. -/
theorem lookupContainer_set_self (l : List (String × String)) (k v c : String)
    (h : lookupContainer l k = some v) :
    lookupContainer (setContainerList l k c) k = some c := by
  induction l with
  | nil => simp [lookupContainer] at h
  | cons p rest ih =>
      rcases p with ⟨pk, pv⟩
      by_cases hk : (pk == k) = true
      · simp [lookupContainer, setContainerList, hk]
      · have hk2 : (pk == k) = false := by
          cases hval : (pk == k) <;> simp_all
        simp only [lookupContainer, setContainerList, hk2, Bool.false_eq_true,
          if_false] at h ⊢
        exact ih h

/-- Writing one container leaves lookups of a different id
unchanged. -/
theorem lookupContainer_set_other (l : List (String × String)) (k1 k2 c : String)
    (h : (k1 == k2) = false) :
    lookupContainer (setContainerList l k1 c) k2 = lookupContainer l k2 := by
  induction l with
  | nil => rfl
  | cons p rest ih =>
      rcases p with ⟨pk, pv⟩
      by_cases hk : (pk == k1) = true
      · have hpk : pk = k1 := by simpa using hk
        have h2 : (pk == k2) = false := by subst hpk; exact h
        simp [lookupContainer, setContainerList, hk, h2]
      · have hk2 : (pk == k1) = false := by
          cases hval : (pk == k1) <;> simp_all
        by_cases h3 : (pk == k2) = true
        · simp [lookupContainer, setContainerList, hk2, h3]
        · have h4 : (pk == k2) = false := by
            cases hval : (pk == k2) <;> simp_all
          simp [lookupContainer, setContainerList, hk2, h4, ih]

/-- `Dom`-level form of `lookupContainer_set_self`. -/
theorem getContainer_set_self (d : Dom) (k v c : String)
    (h : getContainer d k = some v) :
    getContainer (setContainer d k c) k = some c :=
  lookupContainer_set_self d.containers k v c h

/-- `Dom`-level form of `lookupContainer_set_other`. -/
theorem getContainer_set_other (d : Dom) (k1 k2 c : String)
    (h : (k1 == k2) = false) :
    getContainer (setContainer d k1 c) k2 = getContainer d k2 :=
  lookupContainer_set_other d.containers k1 k2 c h

/-- The feature-initialization step only ever writes the `nextMeeting`
element, so every other container keeps its content. -/
theorem initializeComponentFeatures_getContainer (d : Dom) (k : String)
    (h : (("nextMeeting" : String) == k) = false) :
    getContainer (initializeComponentFeatures d) k = getContainer d k := by
  unfold initializeComponentFeatures
  cases hn : getContainer d "nextMeeting" with
  | none => rfl
  | some _ => exact getContainer_set_other d "nextMeeting" k _ h

/-- Happy path of the loader on an existing container: an OK response
whose body reads successfully is injected verbatim and the call
reports success. -/
theorem loadHTMLComponent_ok_eq (st : Nat) (stx path cid name content v : String)
    (d : Dom) (h : getContainer d cid = some v) :
    loadHTMLComponent (FetchOutcome.response true st stx (Except.ok content))
        path cid name d =
      (true, setContainer (setContainer d cid (loadingHTML name)) cid content) := by
  simp [loadHTMLComponent, loadTryBody, h]

/-- Non-OK response on an existing container: the catch block writes
the fallback error content built from `HTTP STATUS: STATUSTEXT` and the
call reports failure (the body is never read). -/
theorem loadHTMLComponent_notOk_eq (st : Nat) (stx path cid name v : String)
    (body : Except String String) (d : Dom) (h : getContainer d cid = some v) :
    loadHTMLComponent (FetchOutcome.response false st stx body) path cid name d =
      (false,
       setContainer (setContainer d cid (loadingHTML name)) cid
         (errorHTML name (httpErrorMsg st stx))) := by
  have h1 : getContainer (setContainer d cid (loadingHTML name)) cid =
      some (loadingHTML name) := getContainer_set_self d cid v _ h
  simp [loadHTMLComponent, loadTryBody, h, h1]

/-- Claim C6: when the footer fetch returns HTTP 404 while the header
fetch returns HTTP 200 with body `<div>H</div>`, `loadAllComponents`
reports header success and footer failure, the header container holds
`<div>H</div>` verbatim, and the footer container holds the visible
fallback content, which contains the text `Unable to load footer`. -/
theorem C6_footer404_header_ok (d : Dom) (hc fc : String)
    (body404 : Except String String)
    (hH : getContainer d "header-container" = some hc)
    (hF : getContainer d "footer-container" = some fc) :
    (loadAllComponents (FetchOutcome.response true 200 "OK" (Except.ok "<div>H</div>"))
        (FetchOutcome.response false 404 "Not Found" body404) d).1 = (true, false) ∧
    getContainer (loadAllComponents
        (FetchOutcome.response true 200 "OK" (Except.ok "<div>H</div>"))
        (FetchOutcome.response false 404 "Not Found" body404) d).2 "header-container" =
      some "<div>H</div>" ∧
    getContainer (loadAllComponents
        (FetchOutcome.response true 200 "OK" (Except.ok "<div>H</div>"))
        (FetchOutcome.response false 404 "Not Found" body404) d).2 "footer-container" =
      some (errorHTML "footer" (httpErrorMsg 404 "Not Found")) ∧
    jsIncludes (errorHTML "footer" (httpErrorMsg 404 "Not Found"))
      "Unable to load footer" = true := by
  have hHF : (("header-container" : String) == "footer-container") = false := by decide
  have hFH : (("footer-container" : String) == "header-container") = false := by decide
  have hNH : (("nextMeeting" : String) == "header-container") = false := by decide
  have hNF : (("nextMeeting" : String) == "footer-container") = false := by decide
  have e1 := loadHTMLComponent_ok_eq 200 "OK" "header.html" "header-container"
    "header" "<div>H</div>" hc d hH
  set dH := setContainer (setContainer d "header-container" (loadingHTML "header"))
    "header-container" "<div>H</div>" with hdH
  have hH2 : getContainer dH "header-container" = some "<div>H</div>" := by
    apply getContainer_set_self _ _ (loadingHTML "header")
    exact getContainer_set_self d _ hc _ hH
  have hF2 : getContainer dH "footer-container" = some fc := by
    rw [hdH, getContainer_set_other _ _ _ _ hHF, getContainer_set_other _ _ _ _ hHF]
    exact hF
  have e2 := loadHTMLComponent_notOk_eq 404 "Not Found" "footer.html"
    "footer-container" "footer" fc body404 dH hF2
  set dF := setContainer (setContainer dH "footer-container" (loadingHTML "footer"))
    "footer-container" (errorHTML "footer" (httpErrorMsg 404 "Not Found")) with hdF
  have hF3 : getContainer dF "footer-container" =
      some (errorHTML "footer" (httpErrorMsg 404 "Not Found")) := by
    apply getContainer_set_self _ _ (loadingHTML "footer")
    exact getContainer_set_self dH _ fc _ hF2
  have hH3 : getContainer dF "header-container" = some "<div>H</div>" := by
    rw [hdF, getContainer_set_other _ _ _ _ hFH, getContainer_set_other _ _ _ _ hFH]
    exact hH2
  unfold loadAllComponents
  simp only [e1]
  simp only [e2]
  refine ⟨trivial, ?_, ?_, by decide⟩
  · rw [initializeComponentFeatures_getContainer _ _ hNH]
    exact hH3
  · rw [initializeComponentFeatures_getContainer _ _ hNF]
    exact hF3

/-- Witness for C6 on the concrete two-container document. -/
theorem C6_witness :
    getContainer loaderDom "header-container" = some "" ∧
    ((loadAllComponents (FetchOutcome.response true 200 "OK" (Except.ok "<div>H</div>"))
        (FetchOutcome.response false 404 "Not Found" (Except.ok "ignored")) loaderDom).1 =
       (true, false) ∧
     getContainer (loadAllComponents
        (FetchOutcome.response true 200 "OK" (Except.ok "<div>H</div>"))
        (FetchOutcome.response false 404 "Not Found" (Except.ok "ignored")) loaderDom).2
        "header-container" = some "<div>H</div>" ∧
     getContainer (loadAllComponents
        (FetchOutcome.response true 200 "OK" (Except.ok "<div>H</div>"))
        (FetchOutcome.response false 404 "Not Found" (Except.ok "ignored")) loaderDom).2
        "footer-container" = some (errorHTML "footer" (httpErrorMsg 404 "Not Found")) ∧
     jsIncludes (errorHTML "footer" (httpErrorMsg 404 "Not Found"))
       "Unable to load footer" = true) :=
  ⟨rfl, C6_footer404_header_ok loaderDom "" "" (Except.ok "ignored") rfl rfl⟩

/-- Claim C10 (amended): for every container id, path and fetch outcome
— network failure, non-OK status, body-read failure included —
`loadHTMLComponent` settles with a boolean (all throw sites sit inside
the try and the catch returns false), and that boolean is true exactly
when the container exists AND the fetch succeeded with an OK status AND
the response body was read successfully. -/
theorem C10_settles_with_boolean (fetchRes : FetchOutcome)
    (componentPath containerId componentName : String) (d : Dom) :
    (loadHTMLComponent fetchRes componentPath containerId componentName d).1 =
      ((getContainer d containerId).isSome && fetchSucceeded fetchRes) := by
  cases hc : getContainer d containerId with
  | none => simp [loadHTMLComponent, loadTryBody, hc]
  | some v =>
      have h1 : getContainer (setContainer d containerId (loadingHTML componentName))
          containerId = some (loadingHTML componentName) :=
        getContainer_set_self d _ v _ hc
      cases fetchRes with
      | netError msg => simp [loadHTMLComponent, loadTryBody, hc, h1, fetchSucceeded]
      | response ok st stx body =>
          cases ok with
          | false => simp [loadHTMLComponent, loadTryBody, hc, h1, fetchSucceeded]
          | true =>
              cases body with
              | error msg => simp [loadHTMLComponent, loadTryBody, hc, h1, fetchSucceeded]
              | ok content => simp [loadHTMLComponent, loadTryBody, hc, fetchSucceeded]

/-- Counterexample for C10 as stated ("true exactly when the container
exists and the fetch succeeded with an OK status"): with an existing
container and an OK 200 response whose body read fails, the call
returns false. -/
theorem C10_counterexample :
    (getContainer loaderDom "header-container").isSome = true ∧
    (loadHTMLComponent (FetchOutcome.response true 200 "OK" (Except.error "read failed"))
        "header.html" "header-container" "header" loaderDom).1 = false := by
  exact ⟨rfl, rfl⟩
